import Mathlib

/-!
Verification of the PostgreSQL migration engine of this repository
(src/engines/postgresql.rs): the error-diagnostics renderer
`print_error_postgres` and the `SqlEngine` operations implemented by
`Postgresql` (`create_migration_table`, `get_migrations`,
`get_migrations_with_hashes`, `migrate`, `rollback`).

Modelling conventions:
- Byte strings (SQL text, messages, identifiers) are lists of characters,
  one character per byte; the sources are exercised on ASCII SQL, where
  byte offsets and character offsets coincide.
- The `postgres` client is external to the repository.  Its effect on the
  target schema is an oracle `BatchExec`: a function from schema state and
  SQL text to the (possibly partially) updated schema plus an optional
  error.  The bookkeeping table is modelled directly as an optional list
  of rows (`none` = table not yet created), since every statement the
  engine issues against it is fixed text generated by the engine itself.
- A transaction is modelled operationally: work proceeds on a staged copy
  of the state; `commit` publishes it; returning without commit discards
  it (PostgreSQL rolls back an abandoned transaction).
- `crit!` logging is modelled as a list of output events returned next to
  the result, and a Rust integer subtraction that would overflow (a
  panic) is modelled as `none`.
-/

/-- Byte strings are modelled as lists of characters (one per byte). -/
abbrev Chars := List Char

/-- ASCII fragment of the whitespace predicate behind rust str::trim
(Unicode whitespace beyond ASCII does not occur in the SQL exercised). -/
def isRustWhitespace (c : Char) : Bool :=
  c = ' ' || c = '\t' || c = '\n' || c = '\x0b' || c = '\x0c' || c = '\r'

/-- Leading-whitespace removal (rust str::trim_start). -/
def trimStart (l : Chars) : Chars := l.dropWhile isRustWhitespace

/-- Trailing-whitespace removal (rust str::trim_end). -/
def trimEnd (l : Chars) : Chars := (l.reverse.dropWhile isRustWhitespace).reverse

/-- rust str::trim removes whitespace from BOTH ends of the line. -/
def trim (l : Chars) : Chars := trimEnd (trimStart l)

/-- Structured database error (postgres DbError), per the tagged-variant
model of spec section 9.  `position` is the parsed byte offset of
`downcast.position()`: `none` covers both an absent position field and the
source's parse failure on a non-`Original` position. -/
structure DbError where
  code : Chars
  severity : Chars
  message : Chars
  position : Option Nat
deriving DecidableEq, Repr

/-- A postgres client error: either a plain error, or one wrapping a
structured `DbError`.  The first component is the rendering of
`format ("\x7b\x7d", error)` that the source names `str_error`. -/
inductive PgError
  | generic (display : Chars)
  | db (display : Chars) (e : DbError)
deriving DecidableEq, Repr

/-- The display string of the whole error (source line 19). -/
def PgError.display : PgError → Chars
  | .generic d => d
  | .db d _ => d

/-- Source lines 21-24: strip one pair of surrounding double quotes.
(The source indexes `[1..len-1]`; a one-character input `"` would panic
there, a case no caller produces — the model returns the empty string.) -/
def strip_outer_quotes (s : Chars) : Chars :=
  if s.head? = some '"' ∧ s.getLast? = some '"' then (s.drop 1).dropLast else s

/-- rust str::split on a newline character: the list of lines, without
their terminators; an empty text yields one empty line. -/
def splitLines : Chars → List Chars
  | [] => [[]]
  | c :: rest =>
    if c = '\n' then [] :: splitLines rest
    else
      match splitLines rest with
      | [] => [[c]]
      | l :: ls => (c :: l) :: ls

/-- Scanner behind `get_relevant_line`: walk the lines accumulating the
line start offset (line length plus one for the newline) and the 1-based
line number, returning the first line whose span contains the offset. -/
def get_relevant_line_aux (position : Nat) :
    Nat → Nat → List Chars → Option (Nat × Nat × Chars)
  | _, _, [] => none
  | start, n, l :: ls =>
    if position < start + l.length + 1 then some (start, n, l)
    else get_relevant_line_aux position (start + l.length + 1) (n + 1) ls

/-- Modelled from the spec: `crate::helpers::get_relevant_line` is called
by src/engines/postgresql.rs but `crate::helpers` is not among the
provided sources.  Spec section 4.4 step 4: scan `sql_text` splitting on
line boundaries, tracking cumulative offset, to find
(line_start_offset, 1-based line_number, line_content); if no line
contains the offset the caller falls back to the plain rendering. -/
def get_relevant_line (content : Chars) (position : Nat) :
    Option (Nat × Nat × Chars) :=
  get_relevant_line_aux position 0 1 (splitLines content)

/-- The observable output of `print_error_postgres`: either the plain
fallback rendering, or the caret diagnostic consisting of the header data
(severity, 1-based line number, column), the trimmed line shown, and the
caret line (spaces, a caret, then code and message). -/
inductive DiagOutput
  | plain (line : Chars)
  | caret (severity : Chars) (lineNumber : Nat) (column : Nat)
      (shown : Chars) (caretLine : Chars)
deriving DecidableEq, Repr

/-- Shallow embedding of `print_error_postgres` (source lines 18-78).
The `crit!` calls are summarised by the returned `DiagOutput`; `none`
models a panic of the source (an overflowing `u32`/`usize` subtraction at
lines 65-66). -/
def print_error_postgres (content : Chars) (error : PgError) : Option DiagOutput :=
  let str_error := strip_outer_quotes (PgError.display error)
  match error with
  | .generic _ => some (.plain (("SQL Error: ").data ++ str_error))
  | .db _ e =>
    match e.position with
    | none => some (.plain (("SQL Error: ").data ++ e.code ++ (": ").data ++ str_error))
    | some position =>
      match get_relevant_line content position with
      | none => some (.plain (("SQL Error: ").data ++ e.code ++ (": ").data ++ str_error))
      | some result =>
        let trimmed := trim result.2.2
        if position < result.1 + 1 then none
        else
          let spaces := position - result.1 - 1
          if spaces < result.2.2.length - trimmed.length then none
          else
            let spaces_trimmed := spaces - (result.2.2.length - trimmed.length)
            some (.caret e.severity result.2.1 spaces trimmed
              (List.replicate spaces_trimmed ' ' ++ ("^ ").data
                ++ e.code ++ (": ").data ++ e.message))

example : trim ((" ab ").data) = ("ab").data := by decide

example : get_relevant_line (("ab\ncd").data) 4 = some (3, 2, ("cd").data) := by decide

example :
    print_error_postgres ((" ab ").data)
      (.db (("boom").data)
        { code := ("42601").data, severity := ("ERROR").data,
          message := ("m").data, position := some 3 })
      = some (.caret (("ERROR").data) 1 2 (("ab").data)
          (("^ 42601: m").data)) := by decide

/-- One row of the bookkeeping table (spec section 3). -/
structure MigrationRecord where
  migration : String
  hash : String
  type : String
  file_name : String
  created_at : Nat
deriving DecidableEq, Repr

/-- State of the bound database: the target schema (abstract, type sigma),
the bookkeeping table (none while not created), and the clock used for
NOW() at insert time. -/
structure DbState (sigma : Type) where
  schema : sigma
  table : Option (List MigrationRecord)
  now : Nat
deriving DecidableEq

/-- Oracle for `batch_execute` of the external postgres client applied to
the user's SQL: from the current schema and the SQL text, the (possibly
partially) updated schema together with an optional error.  A failing
batch may have modified the schema up to the failure point; inside a
transaction such changes are discarded with the transaction. -/
def BatchExec (sigma : Type) := sigma → String → sigma × Option PgError

/-- Backend error the model returns when the bookkeeping table is
addressed before being created (the exact text is opaque to the engine). -/
def relationMissingError : PgError :=
  .generic (("relation does not exist").data)

/-- Backend error the model returns when the INSERT violates the primary
key on "migration" (the exact text is opaque to the engine). -/
def uniqueViolationError (version : String) : PgError :=
  .generic (("duplicate key value violates unique constraint: ").data ++ version.data)

/-- Errors surfaced to the engine's caller: the opaque `EngineError`
struct, or a boxed backend error passed through unchanged. -/
inductive MigErr
  | engineError
  | backend (e : PgError)
deriving DecidableEq, Repr

/-- Observable logging: either a completed diagnostic rendering (a call
of `print_error_postgres` against the given SQL text and error that did
not panic), or a single verbatim `crit!` line. -/
inductive OutputEvent
  | diagRendered (content : String) (error : PgError)
  | critMsg (line : String)
deriving DecidableEq, Repr

/-- The crit line of the bookkeeping-failure branches (source lines 195,
226, 260, 288). -/
def storeErrMsg (e : PgError) : String :=
  ("Could store result in migration table: ") ++ String.mk (PgError.display e)

/-- The crit line of the listing-failure branches (source lines 146, 163). -/
def getErrMsg (e : PgError) : String :=
  ("Error getting migration: ") ++ String.mk (PgError.display e)

/-- Effect of the engine's INSERT INTO the bookkeeping table (source lines
174-176): fails when the table does not exist or the primary key on
"migration" is violated; otherwise appends the row. -/
def insertRecord (t : Option (List MigrationRecord)) (r : MigrationRecord) :
    Except PgError (List MigrationRecord) :=
  match t with
  | none => .error relationMissingError
  | some rows =>
    if rows.any (fun q => q.migration == r.migration) then
      .error (uniqueViolationError r.migration)
    else .ok (rows ++ [r])

/-- Effect of the engine's DELETE FROM the bookkeeping table WHERE
"migration" = version (source lines 242-244). -/
def deleteRecord (t : Option (List MigrationRecord)) (version : String) :
    Except PgError (List MigrationRecord) :=
  match t with
  | none => .error relationMissingError
  | some rows => .ok (rows.filter (fun q => q.migration != version))

/-- ORDER BY "migration" desc computed by the backend: descending
lexicographic string order. -/
def sortStringsDesc (l : List String) : List String :=
  l.mergeSort (fun a b => decide (b ≤ a))

/-- Same ordering on (migration, hash, file_name) result tuples. -/
def sortTriplesDesc (l : List (String × String × String)) :
    List (String × String × String) :=
  l.mergeSort (fun a b => decide (b.1 ≤ a.1))

/-- fn create_migration_table (source lines 128-136): CREATE TABLE IF NOT
EXISTS with the bookkeeping columns; an existing table is left untouched
and the DDL reports 0 rows affected. -/
def create_migration_table {sigma : Type} (s : DbState sigma) :
    Except MigErr Nat × DbState sigma :=
  match s.table with
  | none => (.ok 0, { s with table := some [] })
  | some _ => (.ok 0, s)

/-- fn get_migrations (source lines 138-153): SELECT "migration" ORDER BY
"migration" desc; a query error is logged and passed through. -/
def get_migrations {sigma : Type} (s : DbState sigma) :
    Except MigErr (List String) × List OutputEvent :=
  match s.table with
  | none =>
    (.error (.backend relationMissingError), [.critMsg (getErrMsg relationMissingError)])
  | some rows => (.ok (sortStringsDesc (rows.map (fun r => r.migration))), [])

/-- fn get_migrations_with_hashes (source lines 155-170): SELECT
"migration", "hash", "file_name" WHERE "type" = migration_type ORDER BY
"migration" desc. -/
def get_migrations_with_hashes {sigma : Type} (migration_type : String)
    (s : DbState sigma) :
    Except MigErr (List (String × String × String)) × List OutputEvent :=
  match s.table with
  | none =>
    (.error (.backend relationMissingError), [.critMsg (getErrMsg relationMissingError)])
  | some rows =>
    (.ok (sortTriplesDesc ((rows.filter (fun r => r.type == migration_type)).map
        (fun r => (r.migration, r.hash, r.file_name)))), [])

/-- fn migrate (source lines 172-238).  `ex` is the external client's
batch executor, `dg` the md5 hex digest.  With `skip_transaction` the
batch runs directly on the session (a failing batch leaves its partial
schema changes behind); otherwise all work is staged in a transaction
that is published only by the final commit and discarded when the call
returns early on error.  On batch failure the source calls
`print_error_postgres` before returning; when that rendering panics (the
`none` of the model, source line 66) the whole call panics instead of
returning, so the result is an `Option`: `none` propagates the panic.
Transaction begin and commit are modelled as succeeding (their failure
branches only pass the client error through). -/
def migrate {sigma : Type} (ex : BatchExec sigma) (dg : String → String)
    (file : String) (version : String) (migration_type : String)
    (migration : String) (skip_transaction : Bool) (s : DbState sigma) :
    Option (Except MigErr Unit × DbState sigma × List OutputEvent) :=
  if skip_transaction then
    match ex s.schema migration with
    | (schema1, some e) =>
      match print_error_postgres migration.data e with
      | none => none
      | some _ =>
        some (.error .engineError, { s with schema := schema1 },
          [.diagRendered migration e])
    | (schema1, none) =>
      let hash := dg migration
      let file_name := file
      match insertRecord s.table
          { migration := version, hash := hash, type := migration_type,
            file_name := file_name, created_at := s.now } with
      | .error e =>
        some (.error (.backend e), { s with schema := schema1 },
          [.critMsg (storeErrMsg e)])
      | .ok rows =>
        some (.ok (), { s with schema := schema1, table := some rows }, [])
  else
    match ex s.schema migration with
    | (_, some e) =>
      match print_error_postgres migration.data e with
      | none => none
      | some _ => some (.error .engineError, s, [.diagRendered migration e])
    | (schema1, none) =>
      let hash := dg migration
      let file_name := file
      match insertRecord s.table
          { migration := version, hash := hash, type := migration_type,
            file_name := file_name, created_at := s.now } with
      | .error e => some (.error (.backend e), s, [.critMsg (storeErrMsg e)])
      | .ok rows =>
        some (.ok (), { s with schema := schema1, table := some rows }, [])

/-- fn rollback (source lines 240-300): same structure as `migrate`, with
the DELETE of the version's row in place of the INSERT; the `_file`
argument is unused by the source.  As in `migrate`, a panic of the
diagnostic rendering on the batch-failure branch (source lines 276-282)
is propagated as `none`. -/
def rollback {sigma : Type} (ex : BatchExec sigma) (_file : String)
    (version : String) (migration : String) (skip_transaction : Bool)
    (s : DbState sigma) :
    Option (Except MigErr Unit × DbState sigma × List OutputEvent) :=
  if skip_transaction then
    match ex s.schema migration with
    | (schema1, some e) =>
      match print_error_postgres migration.data e with
      | none => none
      | some _ =>
        some (.error .engineError, { s with schema := schema1 },
          [.diagRendered migration e])
    | (schema1, none) =>
      match deleteRecord s.table version with
      | .error e =>
        some (.error (.backend e), { s with schema := schema1 },
          [.critMsg (storeErrMsg e)])
      | .ok rows =>
        some (.ok (), { s with schema := schema1, table := some rows }, [])
  else
    match ex s.schema migration with
    | (_, some e) =>
      match print_error_postgres migration.data e with
      | none => none
      | some _ => some (.error .engineError, s, [.diagRendered migration e])
    | (schema1, none) =>
      match deleteRecord s.table version with
      | .error e => some (.error (.backend e), s, [.critMsg (storeErrMsg e)])
      | .ok rows =>
        some (.ok (), { s with schema := schema1, table := some rows }, [])

/-- Rejoin the split lines with newlines (left inverse of `splitLines`). -/
def joinNL : List Chars → Chars
  | [] => []
  | [l] => l
  | l :: ls => l ++ '\n' :: joinNL ls

/-- Error returned by the witness batch executor on the text "BAD". -/
def badSqlError : PgError := .generic (("bad sql").data)

/-- Concrete batch executor for witnesses: the schema is a Nat counter
bumped by every batch; the text "BAD" fails, everything else succeeds. -/
def witExec : BatchExec Nat :=
  fun n sql => if sql = "BAD" then (n + 1, some badSqlError) else (n + 1, none)

/-- Concrete digest stand-in for witnesses. -/
def witDigest (sql : String) : String := sql ++ "-digest"

/-- Witness state with an empty bookkeeping table. -/
def witTableState : DbState Nat := { schema := 0, table := some [], now := 7 }

/-- Witness state in which the bookkeeping table was never created. -/
def witNoTableState : DbState Nat := { schema := 0, table := none, now := 7 }

/-- Rows of the ordering example of spec section 8. -/
def c5rows : List MigrationRecord :=
  [ { migration := "2024-01-01", hash := "h1", type := "up", file_name := "a.sql", created_at := 1 },
    { migration := "2024-02-01", hash := "h2", type := "up", file_name := "b.sql", created_at := 2 },
    { migration := "2023-12-01", hash := "h3", type := "up", file_name := "c.sql", created_at := 3 } ]

/-- Witness state holding the ordering example rows. -/
def c5state : DbState Nat := { schema := 0, table := some c5rows, now := 9 }

/-- Record inserted by the C4 witness migrate call. -/
def c4record : MigrationRecord :=
  { migration := "0001", hash := witDigest "CREATE TABLE t (id INT);", type := "up",
    file_name := "f.sql", created_at := 7 }

/-- State after the C4 witness migrate call. -/
def c4state1 : DbState Nat := { schema := 1, table := some [c4record], now := 7 }

/-- Record inserted by the C7 witness migrate call. -/
def c7record : MigrationRecord :=
  { migration := "0001", hash := witDigest "CREATE TABLE t (id INT);", type := "up",
    file_name := "f.sql", created_at := 7 }

/-- State between the C7 witness migrate and rollback calls. -/
def c7state1 : DbState Nat := { schema := 1, table := some [c7record], now := 7 }

/-- State after the C7 witness rollback call. -/
def c7state2 : DbState Nat := { schema := 2, table := some [], now := 7 }

/-- Structured error whose position points at the b of the line " ab "
(1-based byte offset 3) used against the C2 wording. -/
def c2cexError : PgError :=
  .db (("boom").data)
    { code := ("42601").data, severity := ("ERROR").data,
      message := ("syntax error").data, position := some 3 }

/-- Structured error used by the C2 amended witness (offset 4 inside
"  ab", addressing the final b). -/
def c2okError : DbError :=
  { code := ("42601").data, severity := ("ERROR").data,
    message := ("syntax error").data, position := some 4 }

/-- Structured error whose position 2 points inside the leading
whitespace of the line "  X" (the C9 underflow input). -/
def c9cexError : PgError :=
  .db (("boom").data)
    { code := ("42601").data, severity := ("ERROR").data,
      message := ("syntax error").data, position := some 2 }

/-- Structured error used by the C9 amended witness (offset 3 inside
"  X", addressing the X). -/
def c9okError : DbError :=
  { code := ("42601").data, severity := ("ERROR").data,
    message := ("syntax error").data, position := some 3 }

/-- Backend error used against C3: a structured error at 1-based byte
offset 3 of the batch "  BAD  ", a position whose column (2) is smaller
than the 4 characters the line loses to trim(), so rendering it panics. -/
def c3err : PgError :=
  .db (("boom").data)
    { code := ("42601").data, severity := ("ERROR").data,
      message := ("syntax error").data, position := some 3 }

/-- Batch executor used against C3: the batch "  BAD  " fails with the
panic-inducing error c3err; everything else succeeds. -/
def c3exec : BatchExec Nat :=
  fun n sql => if sql = "  BAD  " then (n + 1, some c3err) else (n + 1, none)

/-- Record inserted by a migrate call, as built at source lines 219-229. -/
def mkRecord (version hash migration_type file : String) (now : Nat) : MigrationRecord :=
  { migration := version, hash := hash, type := migration_type,
    file_name := file, created_at := now }

theorem splitLines_ne_nil (c : Chars) : splitLines c ≠ [] := by
  induction c with
  | nil => simp [splitLines]
  | cons ch rest ih =>
    by_cases h : ch = '\n'
    · simp [splitLines, h]
    · simp only [splitLines, if_neg h]
      rcases hs : splitLines rest with _ | ⟨l, ls⟩
      · simp
      · simp

theorem joinNL_cons_cons (c : Char) (l : Chars) (ls : List Chars) :
    joinNL ((c :: l) :: ls) = c :: joinNL (l :: ls) := by
  cases ls <;> rfl

theorem joinNL_splitLines (c : Chars) : joinNL (splitLines c) = c := by
  induction c with
  | nil => rfl
  | cons ch rest ih =>
    by_cases h : ch = '\n'
    · subst h
      simp only [splitLines, if_pos rfl]
      rcases hs : splitLines rest with _ | ⟨l, ls⟩
      · exact absurd hs (splitLines_ne_nil rest)
      · rw [hs] at ih
        show joinNL ([] :: l :: ls) = '\n' :: rest
        show [] ++ '\n' :: joinNL (l :: ls) = '\n' :: rest
        simp [ih]
    · simp only [splitLines, if_neg h]
      rcases hs : splitLines rest with _ | ⟨l, ls⟩
      · exact absurd hs (splitLines_ne_nil rest)
      · rw [hs] at ih
        rw [joinNL_cons_cons, ih]

theorem get_relevant_line_aux_spec (position : Nat) :
    ∀ (lines : List Chars) (start n s m : Nat) (l : Chars),
      start ≤ position →
      get_relevant_line_aux position start n lines = some (s, m, l) →
      start ≤ s ∧ s ≤ position ∧ position < s + l.length + 1 ∧
        ∀ i, i < l.length → (joinNL lines)[s - start + i]? = l[i]? := by
  intro lines
  induction lines with
  | nil => intro start n s m l _ h; simp [get_relevant_line_aux] at h
  | cons l0 rest ih =>
    intro start n s m l hle h
    simp only [get_relevant_line_aux] at h
    by_cases hc : position < start + l0.length + 1
    · rw [if_pos hc] at h
      have h' : start = s ∧ n = m ∧ l0 = l := by simpa using h
      obtain ⟨rfl, rfl, rfl⟩ := h'
      refine ⟨le_refl _, hle, hc, ?_⟩
      intro i hi
      have hii : start - start + i = i := by omega
      rw [hii]
      rcases rest with _ | ⟨r, rs⟩
      · rfl
      · show (l0 ++ '\n' :: joinNL (r :: rs))[i]? = l0[i]?
        exact List.getElem?_append_left hi
    · rw [if_neg hc] at h
      have hle2 : start + l0.length + 1 ≤ position := by omega
      obtain ⟨ih1, ih2, ih3, ih4⟩ := ih (start + l0.length + 1) (n + 1) s m l hle2 h
      refine ⟨by omega, ih2, ih3, ?_⟩
      intro i hi
      rcases rest with _ | ⟨r, rs⟩
      · simp [get_relevant_line_aux] at h
      · show (l0 ++ '\n' :: joinNL (r :: rs))[s - start + i]? = l[i]?
        have hj : (l0 ++ '\n' :: joinNL (r :: rs)) = (l0 ++ ['\n']) ++ joinNL (r :: rs) := by
          simp
        rw [hj]
        have hlen : (l0 ++ ['\n']).length = l0.length + 1 := by simp
        have hge : (l0 ++ ['\n']).length ≤ s - start + i := by omega
        rw [List.getElem?_append_right hge]
        have harith : s - start + i - (l0 ++ ['\n']).length
            = s - (start + l0.length + 1) + i := by
          rw [hlen]; omega
        rw [harith]
        exact ih4 i hi

/-- What `get_relevant_line` guarantees: the returned line starts at the
returned offset inside the text, and the offset lies in the line's span. -/
theorem get_relevant_line_spec (content : Chars) (position s n : Nat) (l : Chars)
    (h : get_relevant_line content position = some (s, n, l)) :
    s ≤ position ∧ position < s + l.length + 1 ∧
      ∀ i, i < l.length → content[s + i]? = l[i]? := by
  obtain ⟨h1, h2, h3, h4⟩ :=
    get_relevant_line_aux_spec position (splitLines content) 0 1 s n l (Nat.zero_le _) h
  refine ⟨h2, h3, ?_⟩
  intro i hi
  have := h4 i hi
  rw [joinNL_splitLines] at this
  simpa using this

theorem trimStart_length_le (l : Chars) : (trimStart l).length ≤ l.length := by
  have h := List.takeWhile_append_dropWhile isRustWhitespace l
  have : (List.takeWhile isRustWhitespace l).length
      + (List.dropWhile isRustWhitespace l).length = l.length := by
    rw [← List.length_append, h]
  simp only [trimStart]
  omega

theorem dropWhile_eq_drop (p : Char → Bool) (l : Chars) :
    List.dropWhile p l = l.drop (List.takeWhile p l).length := by
  induction l with
  | nil => rfl
  | cons c cs ih =>
    by_cases h : p c
    · simp [List.dropWhile_cons, List.takeWhile_cons, h, ih]
    · simp [List.dropWhile_cons, List.takeWhile_cons, h]

theorem trimStart_eq_drop (l : Chars) :
    trimStart l = l.drop (l.length - (trimStart l).length) := by
  have h := List.takeWhile_append_dropWhile isRustWhitespace l
  have hlen : (List.takeWhile isRustWhitespace l).length
      + (List.dropWhile isRustWhitespace l).length = l.length := by
    rw [← List.length_append, h]
  have hdr : l.length - (trimStart l).length
      = (List.takeWhile isRustWhitespace l).length := by
    simp only [trimStart]; omega
  rw [hdr]
  exact dropWhile_eq_drop isRustWhitespace l

theorem length_sub_trimStart (l : Chars) :
    l.length - (trimStart l).length = (List.takeWhile isRustWhitespace l).length := by
  have h := List.takeWhile_append_dropWhile isRustWhitespace l
  have hlen : (List.takeWhile isRustWhitespace l).length
      + (List.dropWhile isRustWhitespace l).length = l.length := by
    rw [← List.length_append, h]
  simp only [trimStart]
  omega

theorem trimStart_getElem (l : Chars) (k : Nat)
    (hk : (List.takeWhile isRustWhitespace l).length ≤ k) :
    (trimStart l)[k - (List.takeWhile isRustWhitespace l).length]? = l[k]? := by
  rw [trimStart, dropWhile_eq_drop, List.getElem?_drop]
  congr 1
  omega

theorem insertRecord_ok {t : Option (List MigrationRecord)} {r : MigrationRecord}
    {rows : List MigrationRecord} (h : insertRecord t r = .ok rows) :
    ∃ rows0, t = some rows0 ∧ rows = rows0 ++ [r] := by
  rcases t with _ | rows0
  · simp [insertRecord] at h
  · simp only [insertRecord] at h
    by_cases hc : rows0.any (fun q => q.migration == r.migration)
    · rw [if_pos hc] at h; cases h
    · rw [if_neg hc] at h
      injection h with h1
      exact ⟨rows0, rfl, h1.symm⟩

theorem deleteRecord_ok {t : Option (List MigrationRecord)} {version : String}
    {rows : List MigrationRecord} (h : deleteRecord t version = .ok rows) :
    ∃ rows0, t = some rows0 ∧ rows = rows0.filter (fun q => q.migration != version) := by
  rcases t with _ | rows0
  · simp [deleteRecord] at h
  · simp only [deleteRecord] at h
    injection h with h1
    exact ⟨rows0, rfl, h1.symm⟩

theorem migrate_ok_spec {sigma : Type} (ex : BatchExec sigma)
    (dg : String → String) (file version migration_type migration : String)
    (skip : Bool) (s s1 : DbState sigma) (out : List OutputEvent)
    (h : migrate ex dg file version migration_type migration skip s
        = some (.ok (), s1, out)) :
    ∃ rows0, s.table = some rows0 ∧
      s1.table = some (rows0 ++
        [{ migration := version, hash := dg migration, type := migration_type,
           file_name := file, created_at := s.now }]) := by
  rcases hp : ex s.schema migration with ⟨sch, err⟩
  rcases err with _ | e
  · cases hins : insertRecord s.table
        { migration := version, hash := dg migration, type := migration_type,
          file_name := file, created_at := s.now } with
    | error e => cases skip <;> simp [migrate, hp, hins] at h
    | ok rows =>
      obtain ⟨rows0, ht0, hrows⟩ := insertRecord_ok hins
      refine ⟨rows0, ht0, ?_⟩
      cases skip <;>
        · simp only [migrate, hp, hins, if_true, if_false, Bool.false_eq_true,
            if_neg, ite_true, ite_false, Option.some.injEq, Prod.mk.injEq] at h
          obtain ⟨-, hs1, -⟩ := h
          rw [← hs1]
          simp [hrows]
  · cases skip <;> cases hpr : print_error_postgres migration.data e <;>
      simp [migrate, hp, hpr] at h

theorem rollback_ok_spec {sigma : Type} (ex : BatchExec sigma)
    (file version migration : String) (skip : Bool)
    (s s1 : DbState sigma) (out : List OutputEvent)
    (h : rollback ex file version migration skip s = some (.ok (), s1, out)) :
    ∃ rows0, s.table = some rows0 ∧
      s1.table = some (rows0.filter (fun q => q.migration != version)) := by
  rcases hp : ex s.schema migration with ⟨sch, err⟩
  rcases err with _ | e
  · cases hdel : deleteRecord s.table version with
    | error e => cases skip <;> simp [rollback, hp, hdel] at h
    | ok rows =>
      obtain ⟨rows0, ht0, hrows⟩ := deleteRecord_ok hdel
      refine ⟨rows0, ht0, ?_⟩
      cases skip <;>
        · simp only [rollback, hp, hdel, if_true, if_false, Bool.false_eq_true,
            if_neg, ite_true, ite_false, Option.some.injEq, Prod.mk.injEq] at h
          obtain ⟨-, hs1, -⟩ := h
          rw [← hs1]
          simp [hrows]
  · cases skip <;> cases hpr : print_error_postgres migration.data e <;>
      simp [rollback, hp, hpr] at h

/-- C1: a migrate call with skip_transaction = false whose SQL batch
fails never writes a bookkeeping row and leaves none of the batch's
earlier statements' effects observable: whenever the call returns at all
(when the diagnostic rendering completed), the database state is exactly
the pre-call state, because the opened transaction is abandoned without
commit; and when the rendering panics the call returns nothing, so no
state change is returned on any failing-batch path. -/
theorem C1_migrate_tx_batch_failure {sigma : Type} (ex : BatchExec sigma)
    (dg : String → String) (file version migration_type migration : String)
    (s : DbState sigma) (e : PgError)
    (h : (ex s.schema migration).2 = some e) :
    migrate ex dg file version migration_type migration false s
      = (print_error_postgres migration.data e).map
          (fun _ => (.error .engineError, s, [.diagRendered migration e])) := by
  rcases hp : ex s.schema migration with ⟨sch, err⟩
  rw [hp] at h
  simp only at h
  subst h
  cases hpr : print_error_postgres migration.data e <;> simp [migrate, hp, hpr]

/-- C1 witness: the failing batch "BAD" on a concrete state (its generic
error renders without panicking). -/
theorem C1_migrate_tx_batch_failure_witness :
    (witExec witTableState.schema "BAD").2 = some badSqlError ∧
    migrate witExec witDigest "f.sql" "0001" "up" "BAD" false witTableState
      = (print_error_postgres ("BAD").data badSqlError).map
          (fun _ => (.error .engineError, witTableState,
            [.diagRendered "BAD" badSqlError])) :=
  ⟨by decide,
    C1_migrate_tx_batch_failure witExec witDigest "f.sql" "0001" "up" "BAD"
      witTableState badSqlError (by decide)⟩

/-- C3 counterexample: the batch "  BAD  " fails with a structured error
at 1-based byte offset 3; rendering that diagnostic underflows at source
line 66 (column 2 is smaller than the 4 characters the line loses to
trim), so both migrate and rollback panic (modelled none) instead of
returning the opaque EngineError the claim promises for every failing
batch. -/
theorem C3_counterexample :
    (c3exec witTableState.schema ("  BAD  ")).2 = some c3err ∧
    print_error_postgres (("  BAD  ").data) c3err = none ∧
    migrate c3exec witDigest "f.sql" "0001" "up" "  BAD  " false witTableState
      = none ∧
    rollback c3exec "f.sql" "0001" "  BAD  " false witTableState = none :=
  ⟨by decide, by decide, rfl, rfl⟩

/-- C3 amended: whenever the SQL batch of a migrate or rollback call
fails (either transaction mode), the backend's rich error is never
returned to the caller; the call's result and output are exactly the
diagnostic renderer's outcome: if the rendering completes, the output is
one diagnostic rendering of that error against the SQL text and the call
returns the opaque EngineError, and if the rendering panics the call
panics without returning anything. -/
theorem C3_batch_failure_opaque {sigma : Type} (ex : BatchExec sigma)
    (dg : String → String) (file version migration_type migration : String)
    (skip : Bool) (s : DbState sigma) (e : PgError)
    (h : (ex s.schema migration).2 = some e) :
    (migrate ex dg file version migration_type migration skip s).map
        (fun r => (r.1, r.2.2))
      = (print_error_postgres migration.data e).map
          (fun _ => (Except.error MigErr.engineError,
            [OutputEvent.diagRendered migration e])) ∧
    (rollback ex file version migration skip s).map (fun r => (r.1, r.2.2))
      = (print_error_postgres migration.data e).map
          (fun _ => (Except.error MigErr.engineError,
            [OutputEvent.diagRendered migration e])) := by
  rcases hp : ex s.schema migration with ⟨sch, err⟩
  rw [hp] at h
  simp only at h
  subst h
  cases hpr : print_error_postgres migration.data e <;>
    cases skip <;> simp [migrate, rollback, hp, hpr]

/-- C3 amended witness: the failing batch "BAD" on a concrete state, in
skip-transaction mode (its generic error renders without panicking). -/
theorem C3_batch_failure_opaque_witness :
    (witExec witTableState.schema "BAD").2 = some badSqlError ∧
    ((migrate witExec witDigest "f.sql" "0001" "up" "BAD" true witTableState).map
        (fun r => (r.1, r.2.2))
      = (print_error_postgres ("BAD").data badSqlError).map
          (fun _ => (Except.error MigErr.engineError,
            [OutputEvent.diagRendered "BAD" badSqlError])) ∧
    (rollback witExec "f.sql" "0001" "BAD" true witTableState).map
        (fun r => (r.1, r.2.2))
      = (print_error_postgres ("BAD").data badSqlError).map
          (fun _ => (Except.error MigErr.engineError,
            [OutputEvent.diagRendered "BAD" badSqlError]))) :=
  ⟨by decide,
    C3_batch_failure_opaque witExec witDigest "f.sql" "0001" "up" "BAD" true
      witTableState badSqlError (by decide)⟩

/-- C6: calling create_migration_table twice in succession never errors
(both calls report 0 rows affected) and the second call leaves the state
after the first call — in particular the table and all its rows —
unchanged. -/
theorem C6_create_migration_table_idempotent {sigma : Type} (s : DbState sigma) :
    (create_migration_table s).1 = .ok 0 ∧
    (create_migration_table (create_migration_table s).2).1 = .ok 0 ∧
    (create_migration_table (create_migration_table s).2).2
      = (create_migration_table s).2 := by
  rcases s with ⟨sch, t, now⟩
  cases t <;> simp [create_migration_table]

/-- C8: when the SQL batch succeeds but the bookkeeping INSERT (migrate)
or DELETE (rollback) fails, the backend error is passed through to the
caller unchanged, and the only output is the single verbatim crit line —
no caret diagnostic is rendered. -/
theorem C8_bookkeeping_failure_verbatim {sigma : Type} (ex : BatchExec sigma)
    (dg : String → String) (file version migration_type migration : String)
    (skip : Bool) (s : DbState sigma)
    (hexec : (ex s.schema migration).2 = none) :
    (∀ e, insertRecord s.table
        { migration := version, hash := dg migration, type := migration_type,
          file_name := file, created_at := s.now } = .error e →
      (migrate ex dg file version migration_type migration skip s).map
          (fun r => (r.1, r.2.2))
        = some (Except.error (MigErr.backend e),
            [OutputEvent.critMsg (storeErrMsg e)])) ∧
    (∀ e, deleteRecord s.table version = .error e →
      (rollback ex file version migration skip s).map (fun r => (r.1, r.2.2))
        = some (Except.error (MigErr.backend e),
            [OutputEvent.critMsg (storeErrMsg e)])) := by
  rcases hp : ex s.schema migration with ⟨sch, err⟩
  rw [hp] at hexec
  simp only at hexec
  subst hexec
  constructor
  · intro e he
    cases skip <;> simp [migrate, hp, he]
  · intro e he
    cases skip <;> simp [rollback, hp, he]

/-- C8 witness: a successful batch against a state whose bookkeeping
table was never created, so both bookkeeping statements fail. -/
theorem C8_bookkeeping_failure_verbatim_witness :
    (witExec witNoTableState.schema "CREATE TABLE t (id INT);").2 = none ∧
    insertRecord witNoTableState.table
      { migration := "0001", hash := witDigest "CREATE TABLE t (id INT);",
        type := "up", file_name := "f.sql",
        created_at := witNoTableState.now } = .error relationMissingError ∧
    deleteRecord witNoTableState.table "0001" = .error relationMissingError ∧
    (migrate witExec witDigest "f.sql" "0001" "up" "CREATE TABLE t (id INT);"
        false witNoTableState).map (fun r => (r.1, r.2.2))
      = some (Except.error (MigErr.backend relationMissingError),
          [OutputEvent.critMsg (storeErrMsg relationMissingError)]) ∧
    (rollback witExec "f.sql" "0001" "DROP TABLE t;" false witNoTableState).map
        (fun r => (r.1, r.2.2))
      = some (Except.error (MigErr.backend relationMissingError),
          [OutputEvent.critMsg (storeErrMsg relationMissingError)]) :=
  ⟨by decide, rfl, rfl,
    (C8_bookkeeping_failure_verbatim witExec witDigest "f.sql" "0001" "up"
      "CREATE TABLE t (id INT);" false witNoTableState (by decide)).1
      relationMissingError rfl,
    (C8_bookkeeping_failure_verbatim witExec witDigest "f.sql" "0001" "up"
      "DROP TABLE t;" false witNoTableState (by decide)).2
      relationMissingError rfl⟩

/-- C10: rollback ignores its file argument: two calls differing only in
the file path produce identical results, outputs, and database states. -/
theorem C10_rollback_ignores_file {sigma : Type} (ex : BatchExec sigma)
    (file1 file2 version migration : String) (skip : Bool) (s : DbState sigma) :
    rollback ex file1 version migration skip s
      = rollback ex file2 version migration skip s := rfl

/-- C5: for every state of the bookkeeping table (its rows satisfy the
primary-key invariant: no two rows share a migration identifier),
get_migrations returns all recorded identifiers in strict descending
string order, and the empty sequence when no migrations are recorded. -/
theorem C5_get_migrations_strict_desc {sigma : Type} (s : DbState sigma)
    (rows : List MigrationRecord) (ht : s.table = some rows)
    (hnd : (rows.map (fun r => r.migration)).Nodup) :
    ∃ l, (get_migrations s).1 = .ok l ∧
      l.Perm (rows.map (fun r => r.migration)) ∧
      l.Pairwise (fun a b => b < a) ∧
      (rows = [] → l = []) := by
  refine ⟨sortStringsDesc (rows.map (fun r => r.migration)), ?_, ?_, ?_, ?_⟩
  · simp [get_migrations, ht]
  · exact List.mergeSort_perm _ _
  · have hs := @List.sorted_mergeSort String
      (fun a b : String => decide (b ≤ a))
      (fun a b c hab hbc => by
        simp only [decide_eq_true_eq] at *
        exact le_trans hbc hab)
      (fun a b => by rcases le_total a b with h | h <;> simp [h])
      (rows.map (fun r => r.migration))
    have hle : (sortStringsDesc (rows.map (fun r => r.migration))).Pairwise
        (fun a b : String => b ≤ a) := by
      refine hs.imp ?_
      intro a b hab
      simpa using hab
    have hnd2 : (sortStringsDesc (rows.map (fun r => r.migration))).Nodup := by
      have hperm := List.mergeSort_perm (rows.map (fun r => r.migration))
        (fun a b : String => decide (b ≤ a))
      exact (hperm.nodup_iff).mpr hnd
    have hpair : (sortStringsDesc (rows.map (fun r => r.migration))).Pairwise
        (fun a b : String => a ≠ b) := hnd2
    refine (hle.and hpair).imp ?_
    intro a b hab
    exact lt_of_le_of_ne hab.1 (Ne.symm hab.2)
  · intro h
    subst h
    simp [sortStringsDesc]

/-- C5 witness: the three identifiers of the spec section 8 example. -/
theorem C5_get_migrations_strict_desc_witness :
    c5state.table = some c5rows ∧
    (c5rows.map (fun r => r.migration)).Nodup ∧
    (∃ l, (get_migrations c5state).1 = .ok l ∧
      l.Perm (c5rows.map (fun r => r.migration)) ∧
      l.Pairwise (fun a b => b < a) ∧
      (c5rows = [] → l = [])) :=
  ⟨rfl, by decide, C5_get_migrations_strict_desc c5state c5rows rfl (by decide)⟩

/-- C4: a successful migrate (either transaction mode) followed by
get_migrations_with_hashes with the same type returns a sequence
containing the tuple of that version whose hash is the digest of the
migrated SQL text, together with its file name. -/
theorem C4_migrate_hash_roundtrip {sigma : Type} (ex : BatchExec sigma)
    (dg : String → String) (file version migration_type migration : String)
    (skip : Bool) (s s1 : DbState sigma) (out : List OutputEvent)
    (h : migrate ex dg file version migration_type migration skip s
        = some (.ok (), s1, out)) :
    ∃ l, (get_migrations_with_hashes migration_type s1).1 = .ok l ∧
      (version, dg migration, file) ∈ l := by
  obtain ⟨rows0, ht0, ht1⟩ := migrate_ok_spec ex dg file version migration_type
    migration skip s s1 out h
  have hmem : (version, dg migration, file) ∈
      (((rows0 ++ [mkRecord version (dg migration) migration_type file s.now]).filter
          (fun r => r.type == migration_type)).map
        (fun r => (r.migration, r.hash, r.file_name))) := by
    apply List.mem_map.mpr
    refine ⟨mkRecord version (dg migration) migration_type file s.now, ?_, rfl⟩
    apply List.mem_filter.mpr
    refine ⟨by simp, by simp [mkRecord]⟩
  refine ⟨sortTriplesDesc (((rows0 ++
        [mkRecord version (dg migration) migration_type file s.now]).filter
        (fun r => r.type == migration_type)).map
      (fun r => (r.migration, r.hash, r.file_name))), ?_, ?_⟩
  · simp only [get_migrations_with_hashes, ht1]
    rfl
  · exact List.mem_mergeSort.mpr hmem

/-- C4 witness: a concrete migrate on the counter schema followed by the
matching listing. -/
theorem C4_migrate_hash_roundtrip_witness :
    migrate witExec witDigest "f.sql" "0001" "up" "CREATE TABLE t (id INT);"
        false witTableState = some (.ok (), c4state1, []) ∧
    (∃ l, (get_migrations_with_hashes "up" c4state1).1 = .ok l ∧
      ("0001", witDigest "CREATE TABLE t (id INT);", "f.sql") ∈ l) :=
  ⟨rfl,
    C4_migrate_hash_roundtrip witExec witDigest "f.sql" "0001" "up"
      "CREATE TABLE t (id INT);" false witTableState c4state1 [] rfl⟩

/-- C7: after a successful migrate of version V followed by a successful
rollback of version V, exactly the bookkeeping records with migration V
are removed (the remaining rows are the filter of the intermediate rows,
order and contents untouched), such a record existed, and a subsequent
get_migrations does not contain V. -/
theorem C7_rollback_removes_exactly {sigma : Type} (ex ex2 : BatchExec sigma)
    (dg : String → String)
    (file version migration_type migration file2 migration2 : String)
    (skip skip2 : Bool) (s s1 s2 : DbState sigma)
    (out1 out2 : List OutputEvent) (rows1 : List MigrationRecord)
    (hm : migrate ex dg file version migration_type migration skip s
        = some (.ok (), s1, out1))
    (ht : s1.table = some rows1)
    (hr : rollback ex2 file2 version migration2 skip2 s1
        = some (.ok (), s2, out2)) :
    s2.table = some (rows1.filter (fun q => q.migration != version)) ∧
    (∃ q ∈ rows1, q.migration = version) ∧
    (∃ l, (get_migrations s2).1 = .ok l ∧ version ∉ l) := by
  obtain ⟨rows0, ht0, ht1⟩ := migrate_ok_spec ex dg file version migration_type
    migration skip s s1 out1 hm
  obtain ⟨rows1x, htx, ht2⟩ := rollback_ok_spec ex2 file2 version migration2
    skip2 s1 s2 out2 hr
  rw [ht] at htx
  injection htx with hx
  subst hx
  rw [ht] at ht1
  injection ht1 with h1
  refine ⟨ht2, ?_, ?_⟩
  · refine ⟨{ migration := version, hash := dg migration, type := migration_type,
              file_name := file, created_at := s.now }, ?_, rfl⟩
    rw [h1]
    simp
  · refine ⟨sortStringsDesc ((rows1.filter (fun q => q.migration != version)).map
      (fun r => r.migration)), by simp [get_migrations, ht2], ?_⟩
    intro hmem
    have hmem2 : version ∈ (rows1.filter (fun q => q.migration != version)).map
        (fun r => r.migration) := by
      have := @List.mem_mergeSort String
        (fun a b : String => decide (b ≤ a)) version
        ((rows1.filter (fun q => q.migration != version)).map
          (fun r => r.migration))
      simp only [sortStringsDesc] at hmem
      exact this.mp hmem
    obtain ⟨q, hq, hqe⟩ := List.mem_map.mp hmem2
    have hne := (List.mem_filter.mp hq).2
    simp only [bne_iff_ne, ne_eq] at hne
    exact hne hqe

/-- C7 witness: migrate version 0001 then roll it back on the counter
schema. -/
theorem C7_rollback_removes_exactly_witness :
    migrate witExec witDigest "f.sql" "0001" "up" "CREATE TABLE t (id INT);"
        false witTableState = some (.ok (), c7state1, []) ∧
    c7state1.table = some [c7record] ∧
    rollback witExec "g.sql" "0001" "DROP TABLE t;" false c7state1
        = some (.ok (), c7state2, []) ∧
    (c7state2.table = some ([c7record].filter (fun q => q.migration != "0001")) ∧
      (∃ q ∈ [c7record], q.migration = "0001") ∧
      (∃ l, (get_migrations c7state2).1 = .ok l ∧ "0001" ∉ l)) :=
  ⟨rfl, rfl, rfl,
    C7_rollback_removes_exactly witExec witExec witDigest "f.sql" "0001" "up"
      "CREATE TABLE t (id INT);" "g.sql" "DROP TABLE t;" false false
      witTableState c7state1 c7state2 [] [] [c7record] rfl rfl rfl⟩

/-- C2 counterexample: on the SQL text " ab " with a structured error at
1-based byte offset 3 (addressing the b), the source computes the column
as 2 but the caret line carries 0 spaces, not column minus the
leading-whitespace count (2 - 1 = 1): line 66 subtracts the length lost
to trim(), which strips trailing whitespace too, so the caret points at
the a rather than the addressed b. -/
theorem C2_counterexample :
    print_error_postgres ((" ab ").data) c2cexError
      = some (.caret (("ERROR").data) 1 2 (("ab").data)
          (List.replicate 0 ' ' ++ ("^ 42601: syntax error").data)) ∧
    (0 : Nat) ≠ 2 - (((" ab ").data).length - (trimStart ((" ab ").data)).length) ∧
    (("ab").data)[(0 : Nat)]? ≠ ((" ab ").data)[(3 : Nat) - 1]? :=
  ⟨by decide, by decide, by decide⟩

/-- C2 amended: the rendering computes column = offset - line_start - 1,
and spaces_trimmed = column minus the number of characters the line loses
to trimming at BOTH ends (not only the leading whitespace); whenever the
line has no trailing whitespace and the column indexes a character of the
line, the caret (spaces_trimmed spaces then the caret character) points
at the character the offset addresses within the trimmed shown line. -/
theorem C2_column_and_caret (content : Chars) (d : Chars) (e : DbError)
    (p s n : Nat) (l : Chars)
    (hpos : e.position = some p)
    (hline : get_relevant_line content p = some (s, n, l))
    (hs : s + 1 ≤ p)
    (hcol : l.length - (trim l).length ≤ p - s - 1) :
    print_error_postgres content (.db d e)
      = some (.caret e.severity n (p - s - 1) (trim l)
          (List.replicate (p - s - 1 - (l.length - (trim l).length)) ' '
            ++ ("^ ").data ++ e.code ++ (": ").data ++ e.message))
    ∧ (trim l = trimStart l → p - s - 1 < l.length →
        (trim l)[p - s - 1 - (l.length - (trim l).length)]? = content[p - 1]?) := by
  constructor
  · simp only [print_error_postgres, hpos, hline]
    rw [if_neg (by omega)]
    rw [if_neg (by omega)]
  · intro htr hlt
    obtain ⟨hs1, hs2, hchar⟩ := get_relevant_line_spec content p s n l hline
    rw [htr, length_sub_trimStart] at hcol ⊢
    rw [trimStart_getElem l (p - s - 1) hcol]
    have harith : s + (p - s - 1) = p - 1 := by omega
    have hc := hchar (p - s - 1) hlt
    rw [harith] at hc
    exact hc.symm

/-- C2 amended witness: the text "  ab" with offset 4 addressing the
final b; the caret lands on that b in the trimmed line "ab". -/
theorem C2_column_and_caret_witness :
    c2okError.position = some 4 ∧
    get_relevant_line (("  ab").data) 4 = some (0, 1, ("  ab").data) ∧
    0 + 1 ≤ 4 ∧
    (("  ab").data).length - (trim (("  ab").data)).length ≤ 4 - 0 - 1 ∧
    (print_error_postgres (("  ab").data) (.db (("boom").data) c2okError)
      = some (.caret c2okError.severity 1 (4 - 0 - 1) (trim (("  ab").data))
          (List.replicate
              (4 - 0 - 1 - ((("  ab").data).length - (trim (("  ab").data)).length)) ' '
            ++ ("^ ").data ++ c2okError.code ++ (": ").data ++ c2okError.message))
      ∧ (trim (("  ab").data) = trimStart (("  ab").data) →
          4 - 0 - 1 < (("  ab").data).length →
          (trim (("  ab").data))[4 - 0 - 1
              - ((("  ab").data).length - (trim (("  ab").data)).length)]?
            = (("  ab").data)[4 - 1]?)) :=
  ⟨rfl, by decide, by decide, by decide,
    C2_column_and_caret (("  ab").data) (("boom").data) c2okError 4 0 1
      (("  ab").data) rfl (by decide) (by decide) (by decide)⟩

/-- C9 counterexample: the text "  X" with a structured error at 1-based
byte offset 2, which falls within the first line (inside its leading
whitespace).  The column is 2 - 0 - 1 = 1 but the line loses 2 characters
to trimming, so the subtraction at source line 66 underflows: the
rendering panics (modelled as none) instead of printing. -/
theorem C9_counterexample :
    get_relevant_line (("  X").data) 2 = some (0, 1, ("  X").data) ∧
    print_error_postgres (("  X").data) c9cexError = none :=
  ⟨by decide, by decide⟩

/-- C9 amended: the rendering does not panic provided the offset exceeds
the located line's start offset and the 0-based column is at least the
number of characters the line loses to trimming — in particular the
offset must NOT point inside the line's leading whitespace; when it does,
the spaces_trimmed subtraction underflows. -/
theorem C9_no_underflow_outside_leading_ws (content : Chars) (d : Chars)
    (e : DbError) (p s n : Nat) (l : Chars)
    (hpos : e.position = some p)
    (hline : get_relevant_line content p = some (s, n, l))
    (hs : s + 1 ≤ p)
    (hcol : l.length - (trim l).length ≤ p - s - 1) :
    print_error_postgres content (.db d e) ≠ none := by
  simp only [print_error_postgres, hpos, hline]
  rw [if_neg (by omega)]
  rw [if_neg (by omega)]
  simp

/-- C9 amended witness: the text "  X" with offset 3 addressing the X,
the first character after the leading whitespace. -/
theorem C9_no_underflow_outside_leading_ws_witness :
    c9okError.position = some 3 ∧
    get_relevant_line (("  X").data) 3 = some (0, 1, ("  X").data) ∧
    0 + 1 ≤ 3 ∧
    (("  X").data).length - (trim (("  X").data)).length ≤ 3 - 0 - 1 ∧
    print_error_postgres (("  X").data) (.db (("boom").data) c9okError) ≠ none :=
  ⟨rfl, by decide, by decide, by decide,
    C9_no_underflow_outside_leading_ws (("  X").data) (("boom").data) c9okError
      3 0 1 (("  X").data) rfl (by decide) (by decide) (by decide)⟩
